import Mathlib

/-!
# MediaSync JNI bridge (`media/jni/android_media_MediaSync.cpp`)

A shallow embedding of the native side of `android.media.MediaSync`.

* The host object `thiz` is represented by its `mNativeContext` field and by the
  strong references taken in its name (`incStrong(thiz)` / `decStrong(thiz)`).
* The wrapped engine (`MediaSync`, reached through `JMediaSync::mSync`) is outside
  this file; it is a parameter `E : MediaSync σ` giving, for every engine
  operation, the status it answers and the engine state it leaves.
* `jniThrowException` appends to `thrown`; every call made through a `JMediaSync`
  handle appends to `calls`.  Both are kept oldest first.
* Status codes come from `utils/Errors.h` and message texts are built with
  `AString`; both are outside this file and enter as the parameter `K : Platform`.
-/

namespace MediaSyncJNI

/-! ## Status codes and the platform -/

/-- Modelled from the spec: `NO_ERROR` is declared in `utils/Errors.h`, which is not
among the sources; the specification's claims give it as the status code 0. -/
def NO_ERROR : Int := 0

/-- The values the source takes from headers and libraries that are not part of
it.  `OK`, `BAD_VALUE`, `NO_INIT` and `INVALID_OPERATION` are the `status_t`
constants of `utils/Errors.h` (a `status_t` is carried as an `Int`); the three
error codes are negative, and `NO_INIT` and `INVALID_OPERATION` differ from
`BAD_VALUE` (they label different cases of one `switch`).  `nullText` is the text
an `AString` holds after being constructed from a null `const char *`. -/
structure Platform where
  OK : Int
  BAD_VALUE : Int
  NO_INIT : Int
  INVALID_OPERATION : Int
  nullText : String
  bad_value_neg : BAD_VALUE < 0
  no_init_neg : NO_INIT < 0
  invalid_operation_neg : INVALID_OPERATION < 0
  no_init_ne_bad_value : NO_INIT ≠ BAD_VALUE
  invalid_operation_ne_bad_value : INVALID_OPERATION ≠ BAD_VALUE

/-- The values of the Android platform headers: `OK = 0`, `BAD_VALUE = -EINVAL`,
`NO_INIT = -ENODEV`, `INVALID_OPERATION = -ENOSYS`; a null C string gives the empty
`AString`. -/
def android : Platform where
  OK := 0
  BAD_VALUE := -22
  NO_INIT := -19
  INVALID_OPERATION := -38
  nullText := ""
  bad_value_neg := by decide
  no_init_neg := by decide
  invalid_operation_neg := by decide
  no_init_ne_bad_value := by decide
  invalid_operation_ne_bad_value := by decide

/-! ## Host-side values -/

/-- The two exception classes `throwExceptionAsNecessary` passes to
`jniThrowException`: `java/lang/IllegalArgumentException` and
`java/lang/IllegalStateException`. -/
inductive JavaExceptionClass where
  | IllegalArgumentException
  | IllegalStateException
deriving DecidableEq, Repr

/-- One `jniThrowException(env, className, msg)` call; `msg` may be a null pointer. -/
structure JavaException where
  className : JavaExceptionClass
  msg : Option String
deriving DecidableEq, Repr

/-- A `jfloat`, carried as its IEEE-754 bit pattern; the bridge never computes
with one. -/
structure JFloat where
  bits : Nat
deriving DecidableEq, Repr

/-- The literal `0.f`. -/
def JFloat.zero : JFloat := ⟨0⟩

/-- The text of `AString(const char *)`. -/
def AString.ofCStr (K : Platform) (s : Option String) : String :=
  match s with
  | some t => t
  | none => K.nullText

/-- The text of `AString::append(int)`, which formats with `%d`. -/
def AString.appendInt (s : String) (n : Int) : String :=
  s ++ toString n

/-- The text of `AString::append(const char *)`. -/
def AString.append (s t : String) : String :=
  s ++ t

/-- A two's-complement `int64_t` holding the low 64 bits of `x`. -/
def toInt64 (x : Int) : Int :=
  (x + 2 ^ 63) % 2 ^ 64 - 2 ^ 63

/-- A native `Surface`; `producer` is what `getIGraphicBufferProducer()` returns
(`none` is a null `sp<>`). -/
structure Surface where
  producer : Option Nat
deriving DecidableEq, Repr

/-- An `android.view.Surface` host object; `nativeSurface` is what
`android_view_Surface_getSurface` finds behind it, `none` once it has been
released. -/
structure JSurface where
  nativeSurface : Option Surface
deriving DecidableEq, Repr

/-- An `android.media.AudioTrack` host object; `nativeTrack` is what
`android_media_AudioTrack_getAudioTrack` finds behind it, `none` once it has been
released. -/
structure JAudioTrack where
  nativeTrack : Option Nat
deriving DecidableEq, Repr

/-- The native `SyncSettings` record of `android_media_SyncSettings.h`. -/
structure SyncSettings where
  syncSource : Int
  audioAdjustMode : Int
  tolerance : JFloat
  frameRate : JFloat
  syncSourceSet : Bool
  audioAdjustModeSet : Bool
  toleranceSet : Bool
  frameRateSet : Bool
deriving DecidableEq, Repr

/-- The three fields of an `android.media.MediaTimestamp` host object whose IDs
`native_init` caches. -/
structure MediaTimestamp where
  mediaTimeUs : Int
  nanoTime : Int
  clockRate : JFloat
deriving DecidableEq, Repr

/-! ## The wrapped engine -/

/-- A `const MediaClock`.  `getMediaTime realUs out` is
`getMediaTime(realUs, &mediaUs)` entered with `mediaUs = out`: the status
returned and the value left in `mediaUs`. -/
structure MediaClock where
  getMediaTime : Int → Int → Int × Int
  getPlaybackRate : JFloat

/-- The engine behind `JMediaSync::mSync`, over engine states `σ`.  Every operation
answers its `status_t` (when it has one), the values it leaves in its out
parameters, and the engine state afterwards. -/
structure MediaSync (σ : Type) where
  create : σ
  configureSurface : σ → Option Nat → Int × σ
  configureAudioTrack : σ → Option Nat → Int → Int × σ
  createInputSurface : σ → Option Nat → Int × Option Nat × σ
  setPlaybackRate : σ → JFloat → Int × σ
  getMediaClock : σ → Option MediaClock × σ
  updateQueuedAudioData : σ → Int → Int → Int × σ
  getPlayTimeForPendingAudioFrames : σ → Int → Int × Int × σ

/-- A call made through a `JMediaSync` handle, with its arguments. -/
inductive EngineCall where
  | configureSurface (bufferProducer : Option Nat)
  | configureAudioTrack (audioTrack : Option Nat) (nativeSampleRateInHz : Int)
  | createInputSurface
  | setPlaybackRate (rate : JFloat)
  | getMediaClock
  | updateQueuedAudioData (sizeInBytes : Int) (presentationTimeUs : Int)
  | getPlayTimeForPendingAudioFrames
deriving DecidableEq, Repr

/-! ## State seen by the native methods -/

/-- What the native methods read and write.

* `context`: the `mNativeContext` field of `thiz`, a `JMediaSync *` (0 is `NULL`).
* `strong p`: the strong references on the object at `p` taken with id `thiz`.
  The `sp<>` locals of a native method take one reference and drop it again
  before the method returns; they are not counted.
* `mSync p`: the engine state behind the `JMediaSync` at `p`.
* `thrown`: the `jniThrowException` calls so far.
* `calls`: the calls made through a `JMediaSync` handle so far, with the handle. -/
structure JNIEnv (σ : Type) where
  context : Nat
  strong : Nat → Int
  mSync : Nat → σ
  thrown : List JavaException
  calls : List (Nat × EngineCall)

variable {σ : Type}

/-- The call `jniThrowException(env, className, msg)`. -/
def jniThrowException (env : JNIEnv σ) (className : JavaExceptionClass)
    (msg : Option String) : JNIEnv σ :=
  { env with thrown := env.thrown ++ [⟨className, msg⟩] }

/-- The call `p->incStrong(thiz)`. -/
def incStrong (env : JNIEnv σ) (p : Nat) : JNIEnv σ :=
  { env with strong := fun q => if q = p then env.strong q + 1 else env.strong q }

/-- The call `p->decStrong(thiz)`. -/
def decStrong (env : JNIEnv σ) (p : Nat) : JNIEnv σ :=
  { env with strong := fun q => if q = p then env.strong q - 1 else env.strong q }

/-- A call `c` through the handle `sync` that leaves the engine in state `s`. -/
def through (env : JNIEnv σ) (sync : Nat) (c : EngineCall) (s : σ) : JNIEnv σ :=
  { env with
    calls := env.calls ++ [(sync, c)]
    mSync := fun p => if p = sync then s else env.mSync p }

/-! ## `JMediaSync` -/

/-- `JMediaSync::configureSurface`. -/
def JMediaSync.configureSurface (E : MediaSync σ) (env : JNIEnv σ) (sync : Nat)
    (bufferProducer : Option Nat) : Int × JNIEnv σ :=
  let r := E.configureSurface (env.mSync sync) bufferProducer
  (r.1, through env sync (.configureSurface bufferProducer) r.2)

/-- `JMediaSync::configureAudioTrack`. -/
def JMediaSync.configureAudioTrack (E : MediaSync σ) (env : JNIEnv σ) (sync : Nat)
    (audioTrack : Option Nat) (nativeSampleRateInHz : Int) : Int × JNIEnv σ :=
  let r := E.configureAudioTrack (env.mSync sync) audioTrack nativeSampleRateInHz
  (r.1, through env sync (.configureAudioTrack audioTrack nativeSampleRateInHz) r.2)

/-- `JMediaSync::createInputSurface`; the second component is `*bufferProducer`
after the call. -/
def JMediaSync.createInputSurface (E : MediaSync σ) (env : JNIEnv σ) (sync : Nat)
    (bufferProducer : Option Nat) : Int × Option Nat × JNIEnv σ :=
  let r := E.createInputSurface (env.mSync sync) bufferProducer
  (r.1, r.2.1, through env sync .createInputSurface r.2.2)

/-- `JMediaSync::setPlaybackRate`. -/
def JMediaSync.setPlaybackRate (E : MediaSync σ) (env : JNIEnv σ) (sync : Nat)
    (rate : JFloat) : Int × JNIEnv σ :=
  let r := E.setPlaybackRate (env.mSync sync) rate
  (r.1, through env sync (.setPlaybackRate rate) r.2)

/-- `JMediaSync::getMediaClock`. -/
def JMediaSync.getMediaClock (E : MediaSync σ) (env : JNIEnv σ) (sync : Nat) :
    Option MediaClock × JNIEnv σ :=
  let r := E.getMediaClock (env.mSync sync)
  (r.1, through env sync .getMediaClock r.2)

/-- `JMediaSync::updateQueuedAudioData`. -/
def JMediaSync.updateQueuedAudioData (E : MediaSync σ) (env : JNIEnv σ) (sync : Nat)
    (sizeInBytes presentationTimeUs : Int) : Int × JNIEnv σ :=
  let r := E.updateQueuedAudioData (env.mSync sync) sizeInBytes presentationTimeUs
  (r.1, through env sync (.updateQueuedAudioData sizeInBytes presentationTimeUs) r.2)

/-- `JMediaSync::getPlayTimeForPendingAudioFrames`; the second component is
`*outTimeUs` after the call. -/
def JMediaSync.getPlayTimeForPendingAudioFrames (E : MediaSync σ) (env : JNIEnv σ)
    (sync : Nat) (outTimeUs : Int) : Int × Int × JNIEnv σ :=
  let r := E.getPlayTimeForPendingAudioFrames (env.mSync sync) outTimeUs
  (r.1, r.2.1, through env sync .getPlayTimeForPendingAudioFrames r.2.2)

/-! ## The native methods -/

/-- `setMediaSync(env, thiz, sync)`: the handle stored before, and the state
after. -/
def setMediaSync (env : JNIEnv σ) (sync : Nat) : Nat × JNIEnv σ :=
  let old := env.context
  let env1 := if sync ≠ 0 then incStrong env sync else env
  let env2 := if old ≠ 0 then decStrong env1 old else env1
  (old, { env2 with context := sync })

/-- `getMediaSync(env, thiz)`. -/
def getMediaSync (env : JNIEnv σ) : Nat :=
  env.context

/-- `android_media_MediaSync_release`. -/
def android_media_MediaSync_release (env : JNIEnv σ) : JNIEnv σ :=
  (setMediaSync env 0).2

/-- `throwExceptionAsNecessary(env, err, msg)`; `msg` is `none` for the default
`NULL`. -/
def throwExceptionAsNecessary (K : Platform) (env : JNIEnv σ) (err : Int)
    (msg : Option String) : JNIEnv σ :=
  if err = NO_ERROR then env
  else if err = K.BAD_VALUE then
    jniThrowException env .IllegalArgumentException msg
  else if err > 0 then env
  else
    let msgWithErrorCode :=
      AString.appendInt (AString.append (AString.ofCStr K msg) " error:") err
    jniThrowException env .IllegalStateException (some msgWithErrorCode)

/-- Lines 166-175 of `android_media_MediaSync_native_configureSurface`: the call
on the engine and the translation of its status. -/
def configureSurface_forward (K : Platform) (E : MediaSync σ) (env : JNIEnv σ)
    (sync : Nat) (bufferProducer : Option Nat) : JNIEnv σ :=
  let r := JMediaSync.configureSurface E env sync bufferProducer
  let err := r.1
  let env1 :=
    if err = K.INVALID_OPERATION then
      throwExceptionAsNecessary K r.2 K.INVALID_OPERATION
        (some "Surface has already been configured")
    else r.2
  if err ≠ NO_ERROR then
    let msg := AString.appendInt "Failed to connect to surface with error " err
    throwExceptionAsNecessary K env1 K.BAD_VALUE (some msg)
  else env1

/-- `android_media_MediaSync_native_configureSurface`; `jsurface` is `none` for a
null `jobject`. -/
def android_media_MediaSync_native_configureSurface (K : Platform)
    (E : MediaSync σ) (env : JNIEnv σ) (jsurface : Option JSurface) : JNIEnv σ :=
  let sync := getMediaSync env
  if sync = 0 then throwExceptionAsNecessary K env K.INVALID_OPERATION none
  else
    match jsurface with
    | some js =>
      match js.nativeSurface with
      | some surface => configureSurface_forward K E env sync surface.producer
      | none =>
        throwExceptionAsNecessary K env K.BAD_VALUE (some "The surface has been released")
    | none => configureSurface_forward K E env sync none

/-- Lines 197-206 of `android_media_MediaSync_native_configureAudioTrack`: the call
on the engine and the translation of its status. -/
def configureAudioTrack_forward (K : Platform) (E : MediaSync σ) (env : JNIEnv σ)
    (sync : Nat) (audioTrack : Option Nat) (nativeSampleRateInHz : Int) : JNIEnv σ :=
  let r := JMediaSync.configureAudioTrack E env sync audioTrack nativeSampleRateInHz
  let err := r.1
  let env1 :=
    if err = K.INVALID_OPERATION then
      throwExceptionAsNecessary K r.2 K.INVALID_OPERATION
        (some "Audio track has already been configured")
    else r.2
  if err ≠ NO_ERROR then
    let msg := AString.appendInt "Failed to configure audio track with error " err
    throwExceptionAsNecessary K env1 K.BAD_VALUE (some msg)
  else env1

/-- `android_media_MediaSync_native_configureAudioTrack`; `jaudioTrack` is `none`
for a null `jobject`. -/
def android_media_MediaSync_native_configureAudioTrack (K : Platform)
    (E : MediaSync σ) (env : JNIEnv σ) (jaudioTrack : Option JAudioTrack)
    (nativeSampleRateInHz : Int) : JNIEnv σ :=
  let sync := getMediaSync env
  if sync = 0 then throwExceptionAsNecessary K env K.INVALID_OPERATION none
  else
    match jaudioTrack with
    | some jt =>
      match jt.nativeTrack with
      | some audioTrack =>
        configureAudioTrack_forward K E env sync (some audioTrack) nativeSampleRateInHz
      | none =>
        throwExceptionAsNecessary K env K.BAD_VALUE
          (some "The audio track has been released")
    | none => configureAudioTrack_forward K E env sync none nativeSampleRateInHz

/-- `android_view_Surface_createFromIGraphicBufferProducer`, which is outside the
source: the host `Surface` wrapping `bufferProducer`, null for a null producer. -/
def android_view_Surface_createFromIGraphicBufferProducer
    (bufferProducer : Option Nat) : Option JSurface :=
  match bufferProducer with
  | some p => some ⟨some ⟨some p⟩⟩
  | none => none

/-- `android_media_MediaSync_createInputSurface`: the `jobject` returned (`none`
is `NULL`) and the state after. -/
def android_media_MediaSync_createInputSurface (K : Platform) (E : MediaSync σ)
    (env : JNIEnv σ) : Option JSurface × JNIEnv σ :=
  let sync := getMediaSync env
  if sync = 0 then (none, throwExceptionAsNecessary K env K.INVALID_OPERATION none)
  else
    let r := JMediaSync.createInputSurface E env sync none
    let err := r.1
    if err ≠ NO_ERROR then
      (none, throwExceptionAsNecessary K r.2.2 K.INVALID_OPERATION none)
    else
      (android_view_Surface_createFromIGraphicBufferProducer r.2.1, r.2.2)

/-- `android_media_MediaSync_native_updateQueuedAudioData`. -/
def android_media_MediaSync_native_updateQueuedAudioData (K : Platform)
    (E : MediaSync σ) (env : JNIEnv σ) (sizeInBytes presentationTimeUs : Int) :
    JNIEnv σ :=
  let sync := getMediaSync env
  if sync = 0 then throwExceptionAsNecessary K env K.INVALID_OPERATION none
  else
    let r := JMediaSync.updateQueuedAudioData E env sync sizeInBytes presentationTimeUs
    let err := r.1
    if err ≠ NO_ERROR then throwExceptionAsNecessary K r.2 err none
    else r.2

/-- What `android_media_MediaSync_native_getTimestamp` leaves: the `jboolean`
returned, the fields of the caller's `timestamp` object, and the state. -/
structure TimestampResult (σ : Type) where
  ret : Bool
  timestamp : MediaTimestamp
  env : JNIEnv σ

/-- `android_media_MediaSync_native_getTimestamp`; `nowUs` is the reading
`ALooper::GetNowUs()` gives on line 260. -/
def android_media_MediaSync_native_getTimestamp (K : Platform) (E : MediaSync σ)
    (env : JNIEnv σ) (timestamp : MediaTimestamp) (nowUs : Int) : TimestampResult σ :=
  let sync := getMediaSync env
  if sync = 0 then
    ⟨false, timestamp, throwExceptionAsNecessary K env K.INVALID_OPERATION none⟩
  else
    let r := JMediaSync.getMediaClock E env sync
    match r.1 with
    | none => ⟨false, timestamp, r.2⟩
    | some mediaClock =>
      let t := mediaClock.getMediaTime nowUs 0
      if t.1 ≠ K.OK then ⟨false, timestamp, r.2⟩
      else
        let mediaUs := t.2
        ⟨true,
          { mediaTimeUs := mediaUs
            nanoTime := toInt64 (nowUs * 1000)
            clockRate := mediaClock.getPlaybackRate },
          r.2⟩

/-- How a native method ends: it returns `value` to the host, or it goes through
a null `JMediaSync` handle, after which nothing is defined. -/
inductive Outcome (α : Type) (σ : Type) where
  | returned (value : α) (env : JNIEnv σ)
  | nullDereference (env : JNIEnv σ)

/-- The state a native method ends in. -/
def Outcome.env {α : Type} : Outcome α σ → JNIEnv σ
  | .returned _ env => env
  | .nullDereference env => env

/-- `android_media_MediaSync_native_getPlayTimeForPendingAudioFrames`.  The null
check on line 278 throws and falls through to the call on line 283. -/
def android_media_MediaSync_native_getPlayTimeForPendingAudioFrames (K : Platform)
    (E : MediaSync σ) (env : JNIEnv σ) : Outcome Int σ :=
  let sync := getMediaSync env
  let env1 :=
    if sync = 0 then throwExceptionAsNecessary K env K.INVALID_OPERATION none else env
  if sync = 0 then
    .nullDereference
      { env1 with calls := env1.calls ++ [(sync, .getPlayTimeForPendingAudioFrames)] }
  else
    let r := JMediaSync.getPlayTimeForPendingAudioFrames E env1 sync 0
    let err := r.1
    let playTimeUs := r.2.1
    let env2 := if err ≠ NO_ERROR then throwExceptionAsNecessary K r.2.2 err none else r.2.2
    .returned playTimeUs env2

/-- `SyncSettings::fillFromJobject`, which is outside the source: the native record
read from the fields of the host object. -/
def SyncSettings.fillFromJobject (settings : SyncSettings) : SyncSettings :=
  settings

/-- `android_media_MediaSync_setSyncSettings`.  The record `scs` is filled and
logged; line 307 leaves passing it on as a TODO. -/
def android_media_MediaSync_setSyncSettings (K : Platform) (env : JNIEnv σ)
    (settings : SyncSettings) : JNIEnv σ :=
  let sync := getMediaSync env
  if sync = 0 then throwExceptionAsNecessary K env K.INVALID_OPERATION none
  else
    let _scs := SyncSettings.fillFromJobject settings
    env

/-- `android_media_MediaSync_getSyncSettings`: the record handed to
`SyncSettings::asJobject` (`none` is the `NULL` return), and the state after. -/
def android_media_MediaSync_getSyncSettings (K : Platform) (env : JNIEnv σ) :
    Option SyncSettings × JNIEnv σ :=
  let sync := getMediaSync env
  if sync = 0 then (none, throwExceptionAsNecessary K env K.INVALID_OPERATION none)
  else
    let scs : SyncSettings :=
      { syncSource := 0
        audioAdjustMode := 0
        tolerance := JFloat.zero
        frameRate := JFloat.zero
        syncSourceSet := true
        audioAdjustModeSet := true
        toleranceSet := true
        frameRateSet := false }
    (some scs, env)

/-- `android_media_MediaSync_native_setup`; `p` is the address `new JMediaSync()`
returns, whose constructor sets `mSync = MediaSync::create()`. -/
def android_media_MediaSync_native_setup (E : MediaSync σ) (env : JNIEnv σ)
    (p : Nat) : JNIEnv σ :=
  let env1 := { env with mSync := fun q => if q = p then E.create else env.mSync q }
  (setMediaSync env1 p).2

/-- `android_media_MediaSync_native_setPlaybackRate`. -/
def android_media_MediaSync_native_setPlaybackRate (K : Platform) (E : MediaSync σ)
    (env : JNIEnv σ) (rate : JFloat) : JNIEnv σ :=
  let sync := getMediaSync env
  if sync = 0 then throwExceptionAsNecessary K env K.INVALID_OPERATION none
  else
    let r := JMediaSync.setPlaybackRate E env sync rate
    let err := r.1
    if err ≠ NO_ERROR then throwExceptionAsNecessary K r.2 err none
    else r.2

/-- `android_media_MediaSync_native_finalize`. -/
def android_media_MediaSync_native_finalize (env : JNIEnv σ) : JNIEnv σ :=
  android_media_MediaSync_release env

/-! ## Sample inputs -/

/-- A sample clock: `getMediaTime` answers status 0 and media time
`realUs - 250000`; the playback rate is `1.0f`. -/
def sampleClock : MediaClock where
  getMediaTime := fun realUs _ => (0, realUs - 250000)
  getPlaybackRate := ⟨0x3F800000⟩

/-- A sample engine whose state counts the operations it has run.  Every
operation answers `status`, leaves 77 or producer 9 in its out parameter, and
`getMediaClock` hands out `clock`. -/
def sampleEngine (status : Int) (clock : Option MediaClock) : MediaSync Nat where
  create := 0
  configureSurface := fun s _ => (status, s + 1)
  configureAudioTrack := fun s _ _ => (status, s + 1)
  createInputSurface := fun s _ => (status, some 9, s + 1)
  setPlaybackRate := fun s _ => (status, s + 1)
  getMediaClock := fun s => (clock, s + 1)
  updateQueuedAudioData := fun s _ _ => (status, s + 1)
  getPlayTimeForPendingAudioFrames := fun s _ => (status, 77, s + 1)

/-- The state before `native_setup`: no handle, no references, nothing thrown. -/
def freshEnv : JNIEnv Nat where
  context := 0
  strong := fun _ => 0
  mSync := fun _ => 0
  thrown := []
  calls := []

/-- The state after `native_setup` has stored a `JMediaSync` allocated at 4096. -/
def liveEnv : JNIEnv Nat :=
  android_media_MediaSync_native_setup (sampleEngine 0 none) freshEnv 4096

/-- The state after `native_setup` and then `native_release`. -/
def releasedEnv : JNIEnv Nat :=
  android_media_MediaSync_release liveEnv

/-- A sample clock without an anchor: `getMediaTime` answers -19 and leaves its out
parameter alone. -/
def unanchoredClock : MediaClock where
  getMediaTime := fun _ out => (-19, out)
  getPlaybackRate := ⟨0x3F800000⟩

/-- A sample timestamp record, as the caller might pass it in. -/
def staleTimestamp : MediaTimestamp where
  mediaTimeUs := 11
  nanoTime := 22
  clockRate := ⟨33⟩

/-! ## Predicates used to state the properties -/

/-- The text `needle` occurs in the text `hay`. -/
def containsText (needle hay : String) : Prop :=
  needle.data <:+: hay.data

instance (needle hay : String) : Decidable (containsText needle hay) :=
  inferInstanceAs (Decidable (needle.data <:+: hay.data))

/-- The exception `x` has a message, and the decimal rendering of the status `e`
occurs in it. -/
def carriesCode (e : Int) (x : JavaException) : Prop :=
  match x.msg with
  | some m => containsText (toString e) m
  | none => False

instance (e : Int) (x : JavaException) : Decidable (carriesCode e x) := by
  unfold carriesCode
  split <;> infer_instance

/-- The host object holds one strong reference on the handle it stores, when that
is not null, and none on any other object. -/
def HostOwnsOne (env : JNIEnv σ) : Prop :=
  ∀ p : Nat, env.strong p = if p = env.context ∧ p ≠ 0 then 1 else 0

/-! ## Error translation -/

/-- `jniThrowException` appends one exception. -/
theorem thrown_jniThrowException (env : JNIEnv σ) (c : JavaExceptionClass)
    (m : Option String) :
    (jniThrowException env c m).thrown = env.thrown ++ [⟨c, m⟩] := rfl

/-- `NO_ERROR` raises nothing. -/
theorem throw_NO_ERROR (K : Platform) (env : JNIEnv σ) (msg : Option String) :
    throwExceptionAsNecessary K env NO_ERROR msg = env := by
  simp [throwExceptionAsNecessary]

/-- A positive status raises nothing. -/
theorem throw_positive (K : Platform) (env : JNIEnv σ) (err : Int)
    (msg : Option String) (h : err > 0) :
    throwExceptionAsNecessary K env err msg = env := by
  have hb := K.bad_value_neg
  have h1 : err ≠ K.BAD_VALUE := by omega
  simp [throwExceptionAsNecessary, h1, h]

/-- `BAD_VALUE` raises the illegal-argument exception with `msg` as passed. -/
theorem throw_BAD_VALUE (K : Platform) (env : JNIEnv σ) (msg : Option String) :
    throwExceptionAsNecessary K env K.BAD_VALUE msg
      = jniThrowException env .IllegalArgumentException msg := by
  have hb := K.bad_value_neg
  have h0 : K.BAD_VALUE ≠ NO_ERROR := by unfold NO_ERROR; omega
  simp [throwExceptionAsNecessary, h0]

/-- A negative status other than `BAD_VALUE` raises the illegal-state exception
with the status appended to the message. -/
theorem throw_other_negative (K : Platform) (env : JNIEnv σ) (err : Int)
    (msg : Option String) (hneg : err < 0) (hne : err ≠ K.BAD_VALUE) :
    throwExceptionAsNecessary K env err msg
      = jniThrowException env .IllegalStateException
          (some (AString.ofCStr K msg ++ " error:" ++ toString err)) := by
  have h0 : err ≠ NO_ERROR := by unfold NO_ERROR; omega
  have h1 : ¬ err > 0 := by omega
  simp [throwExceptionAsNecessary, h0, hne, h1, AString.appendInt, AString.append]

/-- `INVALID_OPERATION` raises the illegal-state exception. -/
theorem throw_INVALID_OPERATION (K : Platform) (env : JNIEnv σ)
    (msg : Option String) :
    throwExceptionAsNecessary K env K.INVALID_OPERATION msg
      = jniThrowException env .IllegalStateException
          (some (AString.ofCStr K msg ++ " error:" ++ toString K.INVALID_OPERATION)) :=
  throw_other_negative K env _ msg K.invalid_operation_neg K.invalid_operation_ne_bad_value

/-- A negative status raises exactly one exception. -/
theorem throw_negative_one (K : Platform) (env : JNIEnv σ) (err : Int)
    (msg : Option String) (hneg : err < 0) :
    ∃ e, (throwExceptionAsNecessary K env err msg).thrown = env.thrown ++ [e] := by
  by_cases hb : err = K.BAD_VALUE
  · subst hb
    exact ⟨_, by rw [throw_BAD_VALUE]; rfl⟩
  · exact ⟨_, by rw [throw_other_negative K env err msg hneg hb]; rfl⟩

/-- C10: `throwExceptionAsNecessary` puts every status code in exactly one of
three classes.  `NO_ERROR` and every positive code raise nothing; `BAD_VALUE`
raises one illegal-argument exception carrying `msg` as it was passed; every
other negative code, `NO_INIT` and `INVALID_OPERATION` among them, raises one
illegal-state exception whose message is `msg`, then `" error:"`, then the code in
decimal.  An illegal-argument exception is raised exactly when the code is
`BAD_VALUE`. -/
theorem throwExceptionAsNecessary_classifies (K : Platform) (env : JNIEnv σ)
    (err : Int) (msg : Option String) :
    (((err = NO_ERROR ∨ err > 0) ∧ err ≠ K.BAD_VALUE ∧ ¬ (err < 0 ∧ err ≠ K.BAD_VALUE))
      ∨ (¬ (err = NO_ERROR ∨ err > 0) ∧ err = K.BAD_VALUE
          ∧ ¬ (err < 0 ∧ err ≠ K.BAD_VALUE))
      ∨ (¬ (err = NO_ERROR ∨ err > 0) ∧ err ≠ K.BAD_VALUE
          ∧ (err < 0 ∧ err ≠ K.BAD_VALUE)))
    ∧ ((err = NO_ERROR ∨ err > 0) → throwExceptionAsNecessary K env err msg = env)
    ∧ (err = K.BAD_VALUE →
        throwExceptionAsNecessary K env err msg
          = { env with thrown := env.thrown ++ [⟨.IllegalArgumentException, msg⟩] })
    ∧ ((err < 0 ∧ err ≠ K.BAD_VALUE) →
        throwExceptionAsNecessary K env err msg
          = { env with
              thrown := env.thrown ++
                [⟨.IllegalStateException,
                  some (AString.ofCStr K msg ++ " error:" ++ toString err)⟩] })
    ∧ (∀ s : String, AString.ofCStr K (some s) = s)
    ∧ (K.NO_INIT < 0 ∧ K.NO_INIT ≠ K.BAD_VALUE)
    ∧ (K.INVALID_OPERATION < 0 ∧ K.INVALID_OPERATION ≠ K.BAD_VALUE)
    ∧ ((∃ m, (throwExceptionAsNecessary K env err msg).thrown
              = env.thrown ++ [⟨.IllegalArgumentException, m⟩])
        ↔ err = K.BAD_VALUE) := by
  have hb := K.bad_value_neg
  refine ⟨?_, ?_, ?_, ?_, fun _ => rfl, ⟨K.no_init_neg, K.no_init_ne_bad_value⟩,
    ⟨K.invalid_operation_neg, K.invalid_operation_ne_bad_value⟩, ?_⟩
  · unfold NO_ERROR
    omega
  · rintro (h | h)
    · subst h
      exact throw_NO_ERROR K env msg
    · exact throw_positive K env err msg h
  · intro h
    subst h
    exact throw_BAD_VALUE K env msg
  · rintro ⟨hneg, hne⟩
    exact throw_other_negative K env err msg hneg hne
  · constructor
    · rintro ⟨m, hm⟩
      by_contra hne
      rcases lt_trichotomy err 0 with hneg | hz | hpos
      · rw [throw_other_negative K env err msg hneg hne, thrown_jniThrowException] at hm
        have := List.append_cancel_left hm
        simp at this
      · rw [show err = NO_ERROR from hz, throw_NO_ERROR] at hm
        simp at hm
      · rw [throw_positive K env err msg hpos] at hm
        simp at hm
    · intro h
      subst h
      exact ⟨msg, by rw [throw_BAD_VALUE]; rfl⟩

/-- Witness for C10 on the Android status codes: status 0 and status 5 raise
nothing, `BAD_VALUE` (-22) raises the illegal-argument exception with the message
unchanged, `NO_INIT` (-19) raises the illegal-state exception with the code
appended. -/
theorem throwExceptionAsNecessary_classifies_witness :
    throwExceptionAsNecessary android freshEnv 0 (some "m") = freshEnv
    ∧ throwExceptionAsNecessary android freshEnv 5 (some "m") = freshEnv
    ∧ (throwExceptionAsNecessary android freshEnv (-22) (some "m")).thrown
        = [⟨.IllegalArgumentException, some "m"⟩]
    ∧ (throwExceptionAsNecessary android freshEnv (-19) (some "m")).thrown
        = [⟨.IllegalStateException, some "m error:-19"⟩] :=
  ⟨(throwExceptionAsNecessary_classifies android freshEnv 0 (some "m")).2.1
      (Or.inl rfl),
    (throwExceptionAsNecessary_classifies android freshEnv 5 (some "m")).2.1
      (Or.inr (by decide)),
    by
      rw [(throwExceptionAsNecessary_classifies android freshEnv (-22) (some "m")).2.2.1
        rfl]
      rfl,
    by
      rw [(throwExceptionAsNecessary_classifies android freshEnv (-19)
        (some "m")).2.2.2.1 ⟨by decide, by decide⟩]
      decide⟩

/-! ## The forwarding methods on a live handle -/

/-- On a live handle `native_setPlaybackRate` is the engine call followed by the
translation of its status. -/
theorem setPlaybackRate_live (K : Platform) (E : MediaSync σ) (env : JNIEnv σ)
    (rate : JFloat) (hlive : env.context ≠ 0) :
    android_media_MediaSync_native_setPlaybackRate K E env rate
      = throwExceptionAsNecessary K
          (through env env.context (.setPlaybackRate rate)
            (E.setPlaybackRate (env.mSync env.context) rate).2)
          (E.setPlaybackRate (env.mSync env.context) rate).1 none := by
  unfold android_media_MediaSync_native_setPlaybackRate
  simp only [getMediaSync, hlive, if_false, JMediaSync.setPlaybackRate]
  split
  · rfl
  · rename_i h
    rw [not_not.mp h, throw_NO_ERROR]

/-- On a live handle `native_updateQueuedAudioData` is the engine call followed
by the translation of its status. -/
theorem updateQueuedAudioData_live (K : Platform) (E : MediaSync σ) (env : JNIEnv σ)
    (sizeInBytes presentationTimeUs : Int) (hlive : env.context ≠ 0) :
    android_media_MediaSync_native_updateQueuedAudioData K E env sizeInBytes
        presentationTimeUs
      = throwExceptionAsNecessary K
          (through env env.context
            (.updateQueuedAudioData sizeInBytes presentationTimeUs)
            (E.updateQueuedAudioData (env.mSync env.context) sizeInBytes
              presentationTimeUs).2)
          (E.updateQueuedAudioData (env.mSync env.context) sizeInBytes
            presentationTimeUs).1 none := by
  unfold android_media_MediaSync_native_updateQueuedAudioData
  simp only [getMediaSync, hlive, if_false, JMediaSync.updateQueuedAudioData]
  split
  · rfl
  · rename_i h
    rw [not_not.mp h, throw_NO_ERROR]

/-- On a live handle `native_getPlayTimeForPendingAudioFrames` is the engine call
followed by the translation of its status; it returns what the engine left in
`playTimeUs`. -/
theorem getPlayTimeForPendingAudioFrames_live (K : Platform) (E : MediaSync σ)
    (env : JNIEnv σ) (hlive : env.context ≠ 0) :
    android_media_MediaSync_native_getPlayTimeForPendingAudioFrames K E env
      = .returned (E.getPlayTimeForPendingAudioFrames (env.mSync env.context) 0).2.1
          (throwExceptionAsNecessary K
            (through env env.context .getPlayTimeForPendingAudioFrames
              (E.getPlayTimeForPendingAudioFrames (env.mSync env.context) 0).2.2)
            (E.getPlayTimeForPendingAudioFrames (env.mSync env.context) 0).1 none) := by
  unfold android_media_MediaSync_native_getPlayTimeForPendingAudioFrames
  simp only [getMediaSync, hlive, if_false, JMediaSync.getPlayTimeForPendingAudioFrames]
  congr 1
  split
  · rfl
  · rename_i h
    rw [not_not.mp h, throw_NO_ERROR]

/-- C3, as the code has it: a negative status is never swallowed.  For every
negative status `err`, `throwExceptionAsNecessary` raises exactly one exception;
and on a live handle `native_setPlaybackRate`, `native_updateQueuedAudioData` and
`native_getPlayTimeForPendingAudioFrames` raise exactly one exception whenever the
engine answers `err`.  A positive status is not a fault: it raises nothing. -/
theorem negative_status_is_raised (K : Platform) (E : MediaSync σ) (env : JNIEnv σ)
    (err : Int) (msg : Option String) (rate : JFloat)
    (sizeInBytes presentationTimeUs : Int) (hneg : err < 0) :
    (∃ e, (throwExceptionAsNecessary K env err msg).thrown = env.thrown ++ [e])
    ∧ (env.context ≠ 0 → (E.setPlaybackRate (env.mSync env.context) rate).1 = err →
        ∃ e, (android_media_MediaSync_native_setPlaybackRate K E env rate).thrown
          = env.thrown ++ [e])
    ∧ (env.context ≠ 0 →
        (E.updateQueuedAudioData (env.mSync env.context) sizeInBytes
          presentationTimeUs).1 = err →
        ∃ e, (android_media_MediaSync_native_updateQueuedAudioData K E env sizeInBytes
            presentationTimeUs).thrown
          = env.thrown ++ [e])
    ∧ (env.context ≠ 0 →
        (E.getPlayTimeForPendingAudioFrames (env.mSync env.context) 0).1 = err →
        ∃ e, (android_media_MediaSync_native_getPlayTimeForPendingAudioFrames K E
            env).env.thrown
          = env.thrown ++ [e])
    ∧ (∀ pos : Int, pos > 0 → throwExceptionAsNecessary K env pos msg = env) := by
  refine ⟨throw_negative_one K env err msg hneg, ?_, ?_, ?_,
    fun pos hpos => throw_positive K env pos msg hpos⟩
  · intro hlive herr
    rw [setPlaybackRate_live K E env rate hlive, herr]
    exact throw_negative_one K _ err none hneg
  · intro hlive herr
    rw [updateQueuedAudioData_live K E env _ _ hlive, herr]
    exact throw_negative_one K _ err none hneg
  · intro hlive herr
    rw [getPlayTimeForPendingAudioFrames_live K E env hlive, herr]
    exact throw_negative_one K _ err none hneg

/-- Witness for the amended C3: on the Android status codes, with an engine that
answers `NO_INIT` (-19) on the live sample state, each of the three methods
raises one exception. -/
theorem negative_status_is_raised_witness :
    (-19 : Int) < 0
    ∧ (∃ e, (throwExceptionAsNecessary android liveEnv (-19) (some "m")).thrown
          = liveEnv.thrown ++ [e])
    ∧ (∃ e, (android_media_MediaSync_native_setPlaybackRate android
          (sampleEngine (-19) none) liveEnv ⟨0x3F800000⟩).thrown = liveEnv.thrown ++ [e])
    ∧ (∃ e, (android_media_MediaSync_native_updateQueuedAudioData android
          (sampleEngine (-19) none) liveEnv 4096 0).thrown = liveEnv.thrown ++ [e])
    ∧ (∃ e, (android_media_MediaSync_native_getPlayTimeForPendingAudioFrames android
          (sampleEngine (-19) none) liveEnv).env.thrown = liveEnv.thrown ++ [e]) :=
  have h := negative_status_is_raised android (sampleEngine (-19) none) liveEnv (-19)
    (some "m") ⟨0x3F800000⟩ 4096 0 (by decide)
  ⟨by decide, h.1, h.2.1 (by decide) rfl, h.2.2.1 (by decide) rfl,
    h.2.2.2.1 (by decide) rfl⟩

/-- Counterexample to C3 as stated: status 1 differs from `NO_ERROR`, yet
`throwExceptionAsNecessary` raises nothing for it, and `native_setPlaybackRate`,
`native_updateQueuedAudioData` and `native_getPlayTimeForPendingAudioFrames` on a
live handle raise nothing when the engine they do call answers 1. -/
theorem positive_status_is_swallowed :
    (1 : Int) ≠ NO_ERROR
    ∧ (throwExceptionAsNecessary android liveEnv 1 (some "m")).thrown = liveEnv.thrown
    ∧ liveEnv.context = 4096 ∧ liveEnv.thrown = []
    ∧ (android_media_MediaSync_native_setPlaybackRate android (sampleEngine 1 none)
          liveEnv ⟨0x3F800000⟩).thrown = []
    ∧ (android_media_MediaSync_native_setPlaybackRate android (sampleEngine 1 none)
          liveEnv ⟨0x3F800000⟩).calls = [(4096, .setPlaybackRate ⟨0x3F800000⟩)]
    ∧ (android_media_MediaSync_native_updateQueuedAudioData android (sampleEngine 1 none)
          liveEnv 4096 0).thrown = []
    ∧ (android_media_MediaSync_native_getPlayTimeForPendingAudioFrames android
          (sampleEngine 1 none) liveEnv).env.thrown = [] := by
  decide

/-! ## After release -/

/-- The exception every null check raises: illegal-state, with `INVALID_OPERATION`
appended to the text of a null message. -/
theorem throw_released (K : Platform) (env : JNIEnv σ) :
    throwExceptionAsNecessary K env K.INVALID_OPERATION none
      = { env with
          thrown := env.thrown ++
            [⟨.IllegalStateException,
              some (K.nullText ++ " error:" ++ toString K.INVALID_OPERATION)⟩] } :=
  throw_INVALID_OPERATION K env none

/-- The eight native methods that return after their null check: on a released
handle each raises the one illegal-state exception, makes no call through the
handle and leaves everything else as it was. -/
theorem released_methods_fail (K : Platform) (E : MediaSync σ) (env : JNIEnv σ)
    (hreleased : env.context = 0) (jsurface : Option JSurface)
    (jaudioTrack : Option JAudioTrack) (nativeSampleRateInHz : Int)
    (sizeInBytes presentationTimeUs : Int) (timestamp : MediaTimestamp) (nowUs : Int)
    (rate : JFloat) (settings : SyncSettings) :
    android_media_MediaSync_native_configureSurface K E env jsurface
        = throwExceptionAsNecessary K env K.INVALID_OPERATION none
    ∧ android_media_MediaSync_native_configureAudioTrack K E env jaudioTrack
          nativeSampleRateInHz
        = throwExceptionAsNecessary K env K.INVALID_OPERATION none
    ∧ android_media_MediaSync_createInputSurface K E env
        = (none, throwExceptionAsNecessary K env K.INVALID_OPERATION none)
    ∧ android_media_MediaSync_native_updateQueuedAudioData K E env sizeInBytes
          presentationTimeUs
        = throwExceptionAsNecessary K env K.INVALID_OPERATION none
    ∧ (android_media_MediaSync_native_getTimestamp K E env timestamp nowUs).ret = false
    ∧ (android_media_MediaSync_native_getTimestamp K E env timestamp nowUs).timestamp
        = timestamp
    ∧ (android_media_MediaSync_native_getTimestamp K E env timestamp nowUs).env
        = throwExceptionAsNecessary K env K.INVALID_OPERATION none
    ∧ android_media_MediaSync_native_setPlaybackRate K E env rate
        = throwExceptionAsNecessary K env K.INVALID_OPERATION none
    ∧ android_media_MediaSync_setSyncSettings K env settings
        = throwExceptionAsNecessary K env K.INVALID_OPERATION none
    ∧ android_media_MediaSync_getSyncSettings K env
        = (none, throwExceptionAsNecessary K env K.INVALID_OPERATION none) := by
  simp [android_media_MediaSync_native_configureSurface,
    android_media_MediaSync_native_configureAudioTrack,
    android_media_MediaSync_createInputSurface,
    android_media_MediaSync_native_updateQueuedAudioData,
    android_media_MediaSync_native_getTimestamp,
    android_media_MediaSync_native_setPlaybackRate,
    android_media_MediaSync_setSyncSettings,
    android_media_MediaSync_getSyncSettings, getMediaSync, hreleased]

/-- On every released handle `native_getPlayTimeForPendingAudioFrames` raises the
illegal-state exception and then calls through the null handle. -/
theorem getPlayTimeForPendingAudioFrames_released (K : Platform) (E : MediaSync σ)
    (env : JNIEnv σ) (hreleased : env.context = 0) :
    android_media_MediaSync_native_getPlayTimeForPendingAudioFrames K E env
      = .nullDereference
          { env with
            thrown := env.thrown ++
              [⟨.IllegalStateException,
                some (K.nullText ++ " error:" ++ toString K.INVALID_OPERATION)⟩]
            calls := env.calls ++ [(0, .getPlayTimeForPendingAudioFrames)] } := by
  simp [android_media_MediaSync_native_getPlayTimeForPendingAudioFrames, getMediaSync,
    hreleased, throw_released]

/-- C1 at the failing input: on the released sample state
`native_getPlayTimeForPendingAudioFrames` raises the illegal-state exception and
then, instead of returning, makes the call `getPlayTimeForPendingAudioFrames`
through the null handle. -/
theorem getPlayTimeForPendingAudioFrames_after_release :
    releasedEnv.context = 0 ∧ releasedEnv.thrown = [] ∧ releasedEnv.calls = []
    ∧ ∃ env,
        android_media_MediaSync_native_getPlayTimeForPendingAudioFrames android
            (sampleEngine 0 none) releasedEnv
          = .nullDereference env
        ∧ env.thrown = [⟨.IllegalStateException, some " error:-38"⟩]
        ∧ env.calls = [(0, .getPlayTimeForPendingAudioFrames)] :=
  ⟨by decide, by decide, by decide, _, rfl, by decide, by decide⟩

/-! ## Configuring twice -/

/-- C2 at the failing input: on the live sample state, with an engine that
answers `INVALID_OPERATION` (-38), `native_configureSurface` and
`native_configureAudioTrack` each raise two exceptions, the illegal-state one and
then an illegal-argument one. -/
theorem configure_twice_raises_two :
    liveEnv.thrown = []
    ∧ (android_media_MediaSync_native_configureSurface android (sampleEngine (-38) none)
          liveEnv (some ⟨some ⟨some 7⟩⟩)).thrown
        = [⟨.IllegalStateException, some "Surface has already been configured error:-38"⟩,
           ⟨.IllegalArgumentException,
            some "Failed to connect to surface with error -38"⟩]
    ∧ (android_media_MediaSync_native_configureAudioTrack android
          (sampleEngine (-38) none) liveEnv (some ⟨some 3⟩) 48000).thrown
        = [⟨.IllegalStateException,
            some "Audio track has already been configured error:-38"⟩,
           ⟨.IllegalArgumentException,
            some "Failed to configure audio track with error -38"⟩] := by
  decide

/-! ## The timestamp query -/

/-- C4: on a live handle, when the engine has no media clock, or its clock answers
a status other than `OK` for the reading `nowUs`, `native_getTimestamp` returns
false, raises nothing, and leaves `mediaTimeUs`, `nanoTime` and `clockRate` of the
caller's record as they were. -/
theorem getTimestamp_not_ready (K : Platform) (E : MediaSync σ) (env : JNIEnv σ)
    (timestamp : MediaTimestamp) (nowUs : Int) (hlive : env.context ≠ 0)
    (hclock : (E.getMediaClock (env.mSync env.context)).1 = none
      ∨ ∃ mediaClock, (E.getMediaClock (env.mSync env.context)).1 = some mediaClock
          ∧ (mediaClock.getMediaTime nowUs 0).1 ≠ K.OK) :
    (android_media_MediaSync_native_getTimestamp K E env timestamp nowUs).ret = false
    ∧ (android_media_MediaSync_native_getTimestamp K E env timestamp nowUs).env.thrown
        = env.thrown
    ∧ (android_media_MediaSync_native_getTimestamp K E env timestamp
          nowUs).timestamp.mediaTimeUs = timestamp.mediaTimeUs
    ∧ (android_media_MediaSync_native_getTimestamp K E env timestamp
          nowUs).timestamp.nanoTime = timestamp.nanoTime
    ∧ (android_media_MediaSync_native_getTimestamp K E env timestamp
          nowUs).timestamp.clockRate = timestamp.clockRate := by
  unfold android_media_MediaSync_native_getTimestamp
  simp only [getMediaSync, hlive, if_false, JMediaSync.getMediaClock]
  rcases hclock with hnone | ⟨mediaClock, hsome, hstatus⟩
  · simp [hnone, through]
  · simp [hsome, hstatus, through]

/-- Witness for C4: the live sample state with an engine that has no clock, and
with an engine whose clock answers -19 where `OK` is 0. -/
theorem getTimestamp_not_ready_witness :
    liveEnv.context ≠ 0
    ∧ (android_media_MediaSync_native_getTimestamp android (sampleEngine 0 none) liveEnv
          staleTimestamp 1000000).ret = false
    ∧ (android_media_MediaSync_native_getTimestamp android
          (sampleEngine 0 (some unanchoredClock)) liveEnv staleTimestamp 1000000).ret
        = false
    ∧ (android_media_MediaSync_native_getTimestamp android
          (sampleEngine 0 (some unanchoredClock)) liveEnv staleTimestamp
          1000000).timestamp.nanoTime = 22 :=
  ⟨by decide,
    (getTimestamp_not_ready android (sampleEngine 0 none) liveEnv staleTimestamp 1000000
      (by decide) (Or.inl rfl)).1,
    (getTimestamp_not_ready android (sampleEngine 0 (some unanchoredClock)) liveEnv
      staleTimestamp 1000000 (by decide)
      (Or.inr ⟨unanchoredClock, rfl, by decide⟩)).1,
    (getTimestamp_not_ready android (sampleEngine 0 (some unanchoredClock)) liveEnv
      staleTimestamp 1000000 (by decide)
      (Or.inr ⟨unanchoredClock, rfl, by decide⟩)).2.2.2.1⟩

/-- C5: when `native_getTimestamp` returns true for the wall reading `nowUs`, the
engine has a clock, `mediaTimeUs` is what that clock's `getMediaTime` left for
`nowUs`, `nanoTime` is `nowUs * 1000` whenever that product fits a signed 64-bit
integer, and `clockRate` is that clock's playback rate. -/
theorem getTimestamp_success (K : Platform) (E : MediaSync σ) (env : JNIEnv σ)
    (timestamp : MediaTimestamp) (nowUs : Int)
    (htrue : (android_media_MediaSync_native_getTimestamp K E env timestamp nowUs).ret
      = true) :
    ∃ mediaClock, (E.getMediaClock (env.mSync env.context)).1 = some mediaClock
      ∧ (mediaClock.getMediaTime nowUs 0).1 = K.OK
      ∧ (android_media_MediaSync_native_getTimestamp K E env timestamp
            nowUs).timestamp.mediaTimeUs = (mediaClock.getMediaTime nowUs 0).2
      ∧ (-(2 : Int) ^ 63 ≤ nowUs * 1000 ∧ nowUs * 1000 < (2 : Int) ^ 63 →
          (android_media_MediaSync_native_getTimestamp K E env timestamp
            nowUs).timestamp.nanoTime = nowUs * 1000)
      ∧ (android_media_MediaSync_native_getTimestamp K E env timestamp
            nowUs).timestamp.clockRate = mediaClock.getPlaybackRate := by
  unfold android_media_MediaSync_native_getTimestamp at htrue ⊢
  simp only [getMediaSync, JMediaSync.getMediaClock] at htrue ⊢
  by_cases hlive : env.context = 0
  · simp [hlive] at htrue
  · simp only [hlive, if_false] at htrue ⊢
    cases hc : (E.getMediaClock (env.mSync env.context)).1 with
    | none => simp [hc] at htrue
    | some mediaClock =>
      simp only [hc] at htrue ⊢
      by_cases hstatus : (mediaClock.getMediaTime nowUs 0).1 = K.OK
      · refine ⟨mediaClock, rfl, hstatus, ?_, ?_, ?_⟩
        · simp [hstatus]
        · intro hfit
          simp only [hstatus, ne_eq, not_true_eq_false, if_false]
          unfold toInt64
          omega
        · simp [hstatus]
      · simp [hstatus] at htrue

/-- Witness for C5: the live sample state, an engine with the sample clock, and
the wall reading 1000000 us. -/
theorem getTimestamp_success_witness :
    (android_media_MediaSync_native_getTimestamp android
        (sampleEngine 0 (some sampleClock)) liveEnv staleTimestamp 1000000).ret = true
    ∧ (∃ mediaClock,
        ((sampleEngine 0 (some sampleClock)).getMediaClock
            (liveEnv.mSync liveEnv.context)).1 = some mediaClock
        ∧ (mediaClock.getMediaTime 1000000 0).1 = android.OK
        ∧ (android_media_MediaSync_native_getTimestamp android
            (sampleEngine 0 (some sampleClock)) liveEnv staleTimestamp
            1000000).timestamp.mediaTimeUs = (mediaClock.getMediaTime 1000000 0).2
        ∧ (-(2 : Int) ^ 63 ≤ 1000000 * 1000 ∧ (1000000 : Int) * 1000 < (2 : Int) ^ 63 →
            (android_media_MediaSync_native_getTimestamp android
              (sampleEngine 0 (some sampleClock)) liveEnv staleTimestamp
              1000000).timestamp.nanoTime = 1000000 * 1000)
        ∧ (android_media_MediaSync_native_getTimestamp android
            (sampleEngine 0 (some sampleClock)) liveEnv staleTimestamp
            1000000).timestamp.clockRate = mediaClock.getPlaybackRate)
    ∧ (android_media_MediaSync_native_getTimestamp android
        (sampleEngine 0 (some sampleClock)) liveEnv staleTimestamp 1000000).timestamp
      = ⟨750000, 1000000000, ⟨0x3F800000⟩⟩ :=
  ⟨by decide,
    getTimestamp_success android (sampleEngine 0 (some sampleClock)) liveEnv
      staleTimestamp 1000000 (by decide),
    by decide⟩

/-! ## The two configure methods -/

/-- What `throwExceptionAsNecessary` leaves alone. -/
theorem throw_frame (K : Platform) (env : JNIEnv σ) (err : Int)
    (msg : Option String) :
    (throwExceptionAsNecessary K env err msg).calls = env.calls
    ∧ (throwExceptionAsNecessary K env err msg).mSync = env.mSync
    ∧ (throwExceptionAsNecessary K env err msg).context = env.context
    ∧ (throwExceptionAsNecessary K env err msg).strong = env.strong := by
  unfold throwExceptionAsNecessary
  split
  · simp
  · split
    · simp [jniThrowException]
    · split <;> simp [jniThrowException]

/-- The exceptions lines 166-175 raise, by the status `err` the engine answered:
the illegal-state one when `err` is `INVALID_OPERATION`, and then the
illegal-argument one when `err` is not `NO_ERROR`. -/
theorem configureSurface_forward_thrown (K : Platform) (E : MediaSync σ)
    (env : JNIEnv σ) (sync : Nat) (bufferProducer : Option Nat) :
    (configureSurface_forward K E env sync bufferProducer).thrown
      = env.thrown
        ++ (if (E.configureSurface (env.mSync sync) bufferProducer).1
                = K.INVALID_OPERATION then
              [⟨.IllegalStateException,
                some ("Surface has already been configured" ++ " error:"
                  ++ toString K.INVALID_OPERATION)⟩]
            else [])
        ++ (if (E.configureSurface (env.mSync sync) bufferProducer).1 ≠ NO_ERROR then
              [⟨.IllegalArgumentException,
                some ("Failed to connect to surface with error "
                  ++ toString (E.configureSurface (env.mSync sync) bufferProducer).1)⟩]
            else []) := by
  unfold configureSurface_forward
  simp only [JMediaSync.configureSurface, throw_INVALID_OPERATION, throw_BAD_VALUE]
  split <;> split <;>
    simp [jniThrowException, through, AString.ofCStr, AString.appendInt]

/-- The exceptions lines 197-206 raise, by the status `err` the engine answered. -/
theorem configureAudioTrack_forward_thrown (K : Platform) (E : MediaSync σ)
    (env : JNIEnv σ) (sync : Nat) (audioTrack : Option Nat)
    (nativeSampleRateInHz : Int) :
    (configureAudioTrack_forward K E env sync audioTrack nativeSampleRateInHz).thrown
      = env.thrown
        ++ (if (E.configureAudioTrack (env.mSync sync) audioTrack
                  nativeSampleRateInHz).1 = K.INVALID_OPERATION then
              [⟨.IllegalStateException,
                some ("Audio track has already been configured" ++ " error:"
                  ++ toString K.INVALID_OPERATION)⟩]
            else [])
        ++ (if (E.configureAudioTrack (env.mSync sync) audioTrack
                  nativeSampleRateInHz).1 ≠ NO_ERROR then
              [⟨.IllegalArgumentException,
                some ("Failed to configure audio track with error "
                  ++ toString (E.configureAudioTrack (env.mSync sync) audioTrack
                      nativeSampleRateInHz).1)⟩]
            else []) := by
  unfold configureAudioTrack_forward
  simp only [JMediaSync.configureAudioTrack, throw_INVALID_OPERATION, throw_BAD_VALUE]
  split <;> split <;>
    simp [jniThrowException, through, AString.ofCStr, AString.appendInt]

/-- The call lines 166-175 make through the handle. -/
theorem configureSurface_forward_calls (K : Platform) (E : MediaSync σ)
    (env : JNIEnv σ) (sync : Nat) (bufferProducer : Option Nat) :
    (configureSurface_forward K E env sync bufferProducer).calls
      = env.calls ++ [(sync, .configureSurface bufferProducer)] := by
  unfold configureSurface_forward
  simp only [JMediaSync.configureSurface]
  split <;> split <;> simp [(throw_frame K _ _ _).1, through]

/-- The call lines 197-206 make through the handle. -/
theorem configureAudioTrack_forward_calls (K : Platform) (E : MediaSync σ)
    (env : JNIEnv σ) (sync : Nat) (audioTrack : Option Nat)
    (nativeSampleRateInHz : Int) :
    (configureAudioTrack_forward K E env sync audioTrack nativeSampleRateInHz).calls
      = env.calls ++ [(sync, .configureAudioTrack audioTrack nativeSampleRateInHz)] := by
  unfold configureAudioTrack_forward
  simp only [JMediaSync.configureAudioTrack]
  split <;> split <;> simp [(throw_frame K _ _ _).1, through]

/-- On every live handle, when the engine answers `INVALID_OPERATION`, each of the
two configure methods raises the illegal-state exception and then an
illegal-argument one. -/
theorem configure_already_configured (K : Platform) (E : MediaSync σ)
    (env : JNIEnv σ) (surface : Option Surface) (audioTrack : Option Nat)
    (nativeSampleRateInHz : Int) (hlive : env.context ≠ 0) :
    ((E.configureSurface (env.mSync env.context) (surface.bind Surface.producer)).1
        = K.INVALID_OPERATION →
      (android_media_MediaSync_native_configureSurface K E env
          (surface.map fun s => ⟨some s⟩)).thrown
        = env.thrown ++
          [⟨.IllegalStateException,
              some ("Surface has already been configured" ++ " error:"
                ++ toString K.INVALID_OPERATION)⟩,
            ⟨.IllegalArgumentException,
              some ("Failed to connect to surface with error "
                ++ toString K.INVALID_OPERATION)⟩])
    ∧ ((E.configureAudioTrack (env.mSync env.context) audioTrack nativeSampleRateInHz).1
        = K.INVALID_OPERATION →
      (android_media_MediaSync_native_configureAudioTrack K E env
          (audioTrack.map fun t => ⟨some t⟩) nativeSampleRateInHz).thrown
        = env.thrown ++
          [⟨.IllegalStateException,
              some ("Audio track has already been configured" ++ " error:"
                ++ toString K.INVALID_OPERATION)⟩,
            ⟨.IllegalArgumentException,
              some ("Failed to configure audio track with error "
                ++ toString K.INVALID_OPERATION)⟩]) := by
  have hne : K.INVALID_OPERATION ≠ NO_ERROR := by
    have := K.invalid_operation_neg
    unfold NO_ERROR
    omega
  constructor
  · intro herr
    have hfw : android_media_MediaSync_native_configureSurface K E env
          (surface.map fun s => ⟨some s⟩)
        = configureSurface_forward K E env env.context
            (surface.bind Surface.producer) := by
      cases surface <;>
        simp [android_media_MediaSync_native_configureSurface, getMediaSync, hlive]
    rw [hfw, configureSurface_forward_thrown, herr]
    simp [hne]
  · intro herr
    have hfw : android_media_MediaSync_native_configureAudioTrack K E env
          (audioTrack.map fun t => ⟨some t⟩) nativeSampleRateInHz
        = configureAudioTrack_forward K E env env.context audioTrack
            nativeSampleRateInHz := by
      cases audioTrack <;>
        simp [android_media_MediaSync_native_configureAudioTrack, getMediaSync, hlive]
    rw [hfw, configureAudioTrack_forward_thrown, herr]
    simp [hne]

/-- C7: on a live handle, a host surface (audio track) whose native object has
been released makes `native_configureSurface` (`native_configureAudioTrack`)
raise the one illegal-argument exception and nothing else: no call goes through
the handle and the engine state is as it was.  A null host object is passed on:
the engine is called once with a null producer (null track), and when it answers
`NO_ERROR` nothing is raised. -/
theorem configure_invalid_handle (K : Platform) (E : MediaSync σ) (env : JNIEnv σ)
    (nativeSampleRateInHz : Int) (hlive : env.context ≠ 0) :
    android_media_MediaSync_native_configureSurface K E env (some ⟨none⟩)
        = { env with
            thrown := env.thrown ++
              [⟨.IllegalArgumentException, some "The surface has been released"⟩] }
    ∧ android_media_MediaSync_native_configureAudioTrack K E env (some ⟨none⟩)
          nativeSampleRateInHz
        = { env with
            thrown := env.thrown ++
              [⟨.IllegalArgumentException, some "The audio track has been released"⟩] }
    ∧ (android_media_MediaSync_native_configureSurface K E env none).calls
        = env.calls ++ [(env.context, .configureSurface none)]
    ∧ ((E.configureSurface (env.mSync env.context) none).1 = NO_ERROR →
        (android_media_MediaSync_native_configureSurface K E env none).thrown
          = env.thrown)
    ∧ (android_media_MediaSync_native_configureAudioTrack K E env none
          nativeSampleRateInHz).calls
        = env.calls ++ [(env.context, .configureAudioTrack none nativeSampleRateInHz)]
    ∧ ((E.configureAudioTrack (env.mSync env.context) none nativeSampleRateInHz).1
          = NO_ERROR →
        (android_media_MediaSync_native_configureAudioTrack K E env none
          nativeSampleRateInHz).thrown = env.thrown) := by
  have hne : NO_ERROR ≠ K.INVALID_OPERATION := by
    have := K.invalid_operation_neg
    unfold NO_ERROR
    omega
  refine ⟨?_, ?_, ?_, ?_, ?_, ?_⟩
  · simp [android_media_MediaSync_native_configureSurface, getMediaSync, hlive,
      throw_BAD_VALUE, jniThrowException]
  · simp [android_media_MediaSync_native_configureAudioTrack, getMediaSync, hlive,
      throw_BAD_VALUE, jniThrowException]
  · simp [android_media_MediaSync_native_configureSurface, getMediaSync, hlive,
      configureSurface_forward_calls]
  · intro hok
    simp [android_media_MediaSync_native_configureSurface, getMediaSync, hlive,
      configureSurface_forward_thrown, hok, hne]
  · simp [android_media_MediaSync_native_configureAudioTrack, getMediaSync, hlive,
      configureAudioTrack_forward_calls]
  · intro hok
    simp [android_media_MediaSync_native_configureAudioTrack, getMediaSync, hlive,
      configureAudioTrack_forward_thrown, hok, hne]

/-- Witness for C7: the live sample state and an engine that answers `NO_ERROR`. -/
theorem configure_invalid_handle_witness :
    liveEnv.context ≠ 0
    ∧ (android_media_MediaSync_native_configureSurface android (sampleEngine 0 none)
          liveEnv (some ⟨none⟩)).calls = liveEnv.calls
    ∧ (android_media_MediaSync_native_configureSurface android (sampleEngine 0 none)
          liveEnv none).calls
        = liveEnv.calls ++ [(liveEnv.context, .configureSurface none)]
    ∧ (android_media_MediaSync_native_configureSurface android (sampleEngine 0 none)
          liveEnv none).thrown = liveEnv.thrown :=
  have h := configure_invalid_handle android (sampleEngine 0 none) liveEnv 48000
    (by decide)
  ⟨by decide, by rw [h.1], h.2.2.1, h.2.2.2.1 rfl⟩

/-! ## Sync settings -/

/-- C8: on a live handle `setSyncSettings` changes nothing at all, whatever the
settings: nothing is raised and no call goes through the handle.  After any
sequence of `setSyncSettings` calls, `getSyncSettings` returns the record with
`syncSource`, `audioAdjustMode`, `tolerance` and `frameRate` all zero, the first
three marked set and `frameRate` marked not set, and changes nothing either; so
settings that differ from that record do not come back. -/
theorem syncSettings_ignored (K : Platform) (env : JNIEnv σ)
    (settings : SyncSettings) (earlier : List SyncSettings) (hlive : env.context ≠ 0) :
    android_media_MediaSync_setSyncSettings K env settings = env
    ∧ android_media_MediaSync_getSyncSettings K
          (earlier.foldl (android_media_MediaSync_setSyncSettings K) env)
        = (some
            { syncSource := 0
              audioAdjustMode := 0
              tolerance := ⟨0⟩
              frameRate := ⟨0⟩
              syncSourceSet := true
              audioAdjustModeSet := true
              toleranceSet := true
              frameRateSet := false },
           env)
    ∧ (settings.syncSource ≠ 0 ∨ settings.audioAdjustMode ≠ 0
          ∨ settings.tolerance ≠ ⟨0⟩ ∨ settings.frameRate ≠ ⟨0⟩
          ∨ settings.syncSourceSet = false ∨ settings.audioAdjustModeSet = false
          ∨ settings.toleranceSet = false ∨ settings.frameRateSet = true →
        (android_media_MediaSync_getSyncSettings K
            (android_media_MediaSync_setSyncSettings K env settings)).1
          ≠ some settings) := by
  have hset : ∀ s : SyncSettings, android_media_MediaSync_setSyncSettings K env s = env := by
    intro s
    simp [android_media_MediaSync_setSyncSettings, getMediaSync, hlive]
  have hfold : earlier.foldl (android_media_MediaSync_setSyncSettings K) env = env := by
    induction earlier with
    | nil => rfl
    | cons s rest ih => rw [List.foldl_cons, hset s, ih]
  refine ⟨hset settings, ?_, ?_⟩
  · rw [hfold]
    simp [android_media_MediaSync_getSyncSettings, getMediaSync, hlive, JFloat.zero]
  · intro hdiff hback
    rw [hset settings] at hback
    simp only [android_media_MediaSync_getSyncSettings, getMediaSync, hlive, if_false,
      Option.some.injEq, JFloat.zero] at hback
    subst hback
    simp at hdiff

/-- Witness for C8: the live sample state; settings that ask for sync source 2
and a frame rate are taken without effect and do not come back. -/
theorem syncSettings_ignored_witness :
    liveEnv.context ≠ 0
    ∧ (android_media_MediaSync_setSyncSettings android liveEnv
          ⟨2, 1, ⟨5⟩, ⟨7⟩, true, true, true, true⟩).calls = liveEnv.calls
    ∧ (android_media_MediaSync_getSyncSettings android
          ([⟨2, 1, ⟨5⟩, ⟨7⟩, true, true, true, true⟩].foldl
            (android_media_MediaSync_setSyncSettings android) liveEnv)).1
        = some ⟨0, 0, ⟨0⟩, ⟨0⟩, true, true, true, false⟩
    ∧ (android_media_MediaSync_getSyncSettings android
          (android_media_MediaSync_setSyncSettings android liveEnv
            ⟨2, 1, ⟨5⟩, ⟨7⟩, true, true, true, true⟩)).1
        ≠ some ⟨2, 1, ⟨5⟩, ⟨7⟩, true, true, true, true⟩ :=
  have h := syncSettings_ignored android liveEnv ⟨2, 1, ⟨5⟩, ⟨7⟩, true, true, true, true⟩
    [⟨2, 1, ⟨5⟩, ⟨7⟩, true, true, true, true⟩] (by decide)
  ⟨by decide, by rw [h.1], by rw [h.2.1], h.2.2 (Or.inl (by decide))⟩

/-! ## The stored handle and its reference -/

/-- The strong counts `setMediaSync` leaves: one more on a non-null new handle,
one less on a non-null previous handle. -/
theorem setMediaSync_strong (env : JNIEnv σ) (sync p : Nat) :
    (setMediaSync env sync).2.strong p
      = env.strong p + (if p = sync ∧ sync ≠ 0 then 1 else 0)
          - (if p = env.context ∧ env.context ≠ 0 then 1 else 0) := by
  unfold setMediaSync
  by_cases hs : sync = 0 <;> by_cases ho : env.context = 0 <;>
    by_cases hps : p = sync <;> by_cases hpo : p = env.context <;>
    simp [hs, ho, hps, hpo, incStrong, decStrong] <;> omega

/-- The invariant `HostOwnsOne` holds again after `setMediaSync`. -/
theorem setMediaSync_HostOwnsOne (env : JNIEnv σ) (sync : Nat) (h : HostOwnsOne env) :
    HostOwnsOne (setMediaSync env sync).2 := by
  intro p
  rw [setMediaSync_strong, h p]
  have hc : (setMediaSync env sync).2.context = sync := rfl
  rw [hc]
  by_cases hps : p = sync <;> by_cases hpo : p = env.context <;>
    by_cases hp0 : p = 0 <;> simp [hps, hpo, hp0] <;> omega

/-- The native methods other than `native_setup`, `native_release` and
`native_finalize` leave the context field and the strong counts alone. -/
theorem other_methods_keep_handle (K : Platform) (E : MediaSync σ) (env : JNIEnv σ)
    (jsurface : Option JSurface) (jaudioTrack : Option JAudioTrack)
    (nativeSampleRateInHz sizeInBytes presentationTimeUs nowUs : Int)
    (timestamp : MediaTimestamp) (rate : JFloat) (settings : SyncSettings) :
    ∀ env1 ∈
      [android_media_MediaSync_native_configureSurface K E env jsurface,
        android_media_MediaSync_native_configureAudioTrack K E env jaudioTrack
          nativeSampleRateInHz,
        (android_media_MediaSync_createInputSurface K E env).2,
        android_media_MediaSync_native_updateQueuedAudioData K E env sizeInBytes
          presentationTimeUs,
        (android_media_MediaSync_native_getTimestamp K E env timestamp nowUs).env,
        (android_media_MediaSync_native_getPlayTimeForPendingAudioFrames K E env).env,
        android_media_MediaSync_setSyncSettings K env settings,
        (android_media_MediaSync_getSyncSettings K env).2,
        android_media_MediaSync_native_setPlaybackRate K E env rate],
      env1.context = env.context ∧ env1.strong = env.strong := by
  have hf := fun (e : JNIEnv σ) (err : Int) (m : Option String) =>
    (throw_frame K e err m).2.2
  intro env1 hmem
  simp only [List.mem_cons, List.mem_singleton, List.not_mem_nil, or_false] at hmem
  rcases hmem with h | h | h | h | h | h | h | h | h <;> subst h
  · unfold android_media_MediaSync_native_configureSurface configureSurface_forward
    simp only [JMediaSync.configureSurface]
    rcases jsurface with _ | ⟨_ | surface⟩ <;> dsimp only <;> split_ifs <;>
      simp [hf, through]
  · unfold android_media_MediaSync_native_configureAudioTrack configureAudioTrack_forward
    simp only [JMediaSync.configureAudioTrack]
    rcases jaudioTrack with _ | ⟨_ | audioTrack⟩ <;> dsimp only <;> split_ifs <;>
      simp [hf, through]
  · unfold android_media_MediaSync_createInputSurface
    simp only [JMediaSync.createInputSurface]
    split_ifs <;> simp [hf, through]
  · unfold android_media_MediaSync_native_updateQueuedAudioData
    simp only [JMediaSync.updateQueuedAudioData]
    split_ifs <;> simp [hf, through]
  · unfold android_media_MediaSync_native_getTimestamp
    simp only [JMediaSync.getMediaClock]
    split_ifs
    · simp [hf]
    · cases (E.getMediaClock (env.mSync (getMediaSync env))).1 with
      | none => simp [through]
      | some mediaClock => dsimp only; split_ifs <;> simp [through]
  · unfold android_media_MediaSync_native_getPlayTimeForPendingAudioFrames
    simp only [JMediaSync.getPlayTimeForPendingAudioFrames]
    split_ifs <;> simp [hf, through, Outcome.env]
  · unfold android_media_MediaSync_setSyncSettings
    by_cases h0 : getMediaSync env = 0 <;> simp [h0, hf]
  · unfold android_media_MediaSync_getSyncSettings
    by_cases h0 : getMediaSync env = 0 <;> simp [h0, hf]
  · unfold android_media_MediaSync_native_setPlaybackRate
    simp only [JMediaSync.setPlaybackRate]
    split_ifs <;> simp [hf, through]

/-- C9: `release` twice leaves the state `release` once leaves: the context field
is null, nothing is raised, and the second call changes no count.  For every
state and every `sync`, `setMediaSync` returns the handle stored before, stores
`sync`, adds one strong reference to `sync` when it is not null and removes one
from the previous handle when that is not null (no net change when they are the
same); so a state in which the host object holds exactly one reference on the
handle it stores stays such a state under `setMediaSync`, `native_setup`,
`release` and every other native method. -/
theorem release_idempotent_references_balanced (K : Platform) (E : MediaSync σ)
    (env : JNIEnv σ) (sync : Nat) (jsurface : Option JSurface)
    (jaudioTrack : Option JAudioTrack)
    (nativeSampleRateInHz sizeInBytes presentationTimeUs nowUs : Int)
    (timestamp : MediaTimestamp) (rate : JFloat) (settings : SyncSettings) :
    android_media_MediaSync_release (android_media_MediaSync_release env)
        = android_media_MediaSync_release env
    ∧ (android_media_MediaSync_release env).context = 0
    ∧ (android_media_MediaSync_release env).thrown = env.thrown
    ∧ (android_media_MediaSync_release (android_media_MediaSync_release env)).strong
        = (android_media_MediaSync_release env).strong
    ∧ (setMediaSync env sync).1 = env.context
    ∧ (setMediaSync env sync).2.context = sync
    ∧ (∀ p, (setMediaSync env sync).2.strong p
          = env.strong p + (if p = sync ∧ sync ≠ 0 then 1 else 0)
              - (if p = env.context ∧ env.context ≠ 0 then 1 else 0))
    ∧ (sync = env.context → (setMediaSync env sync).2.strong = env.strong)
    ∧ (HostOwnsOne env →
        HostOwnsOne (setMediaSync env sync).2
        ∧ HostOwnsOne (android_media_MediaSync_native_setup E env sync)
        ∧ HostOwnsOne (android_media_MediaSync_release env)
        ∧ (sync ≠ 0 → (setMediaSync env sync).2.strong sync = 1)
        ∧ ∀ env1 ∈
            [android_media_MediaSync_native_configureSurface K E env jsurface,
              android_media_MediaSync_native_configureAudioTrack K E env jaudioTrack
                nativeSampleRateInHz,
              (android_media_MediaSync_createInputSurface K E env).2,
              android_media_MediaSync_native_updateQueuedAudioData K E env sizeInBytes
                presentationTimeUs,
              (android_media_MediaSync_native_getTimestamp K E env timestamp nowUs).env,
              (android_media_MediaSync_native_getPlayTimeForPendingAudioFrames K E
                env).env,
              android_media_MediaSync_setSyncSettings K env settings,
              (android_media_MediaSync_getSyncSettings K env).2,
              android_media_MediaSync_native_setPlaybackRate K E env rate],
            HostOwnsOne env1) := by
  have hidem : android_media_MediaSync_release (android_media_MediaSync_release env)
      = android_media_MediaSync_release env := by
    unfold android_media_MediaSync_release setMediaSync
    by_cases ho : env.context = 0 <;> simp [ho, decStrong]
  refine ⟨hidem, rfl, ?_, by rw [hidem], rfl, rfl, setMediaSync_strong env sync, ?_, ?_⟩
  · unfold android_media_MediaSync_release setMediaSync
    by_cases ho : env.context = 0 <;> simp [ho, decStrong]
  · intro hsame
    funext p
    rw [setMediaSync_strong, hsame]
    omega
  · intro h
    refine ⟨setMediaSync_HostOwnsOne env sync h, ?_, setMediaSync_HostOwnsOne env 0 h, ?_,
      ?_⟩
    · exact setMediaSync_HostOwnsOne
        { env with mSync := fun q => if q = sync then E.create else env.mSync q } sync h
    · intro hs
      have := setMediaSync_HostOwnsOne env sync h sync
      simpa [show (setMediaSync env sync).2.context = sync from rfl, hs] using this
    · intro env1 hmem p
      have hkeep := other_methods_keep_handle K E env jsurface jaudioTrack
        nativeSampleRateInHz sizeInBytes presentationTimeUs nowUs timestamp rate settings
        env1 hmem
      rw [hkeep.1, hkeep.2]
      exact h p

/-- Witness for C9: the state before `native_setup` has the invariant; so has the
state after `native_setup` at 4096 and after storing the handle 8192 over it,
which then carries one reference while 4096 carries none. -/
theorem release_idempotent_references_balanced_witness :
    HostOwnsOne freshEnv
    ∧ HostOwnsOne (android_media_MediaSync_native_setup (sampleEngine 0 none) freshEnv 4096)
    ∧ HostOwnsOne (setMediaSync liveEnv 8192).2
    ∧ (setMediaSync liveEnv 8192).2.strong 8192 = 1
    ∧ (setMediaSync liveEnv 8192).2.strong 4096 = 0 :=
  have h0 : HostOwnsOne freshEnv := fun p => by simp [freshEnv]
  have h1 := (release_idempotent_references_balanced android (sampleEngine 0 none)
    freshEnv 4096 none none 48000 4096 0 1000000 staleTimestamp ⟨0⟩
    ⟨0, 0, ⟨0⟩, ⟨0⟩, true, true, true, false⟩).2.2.2.2.2.2.2.2 h0
  have h2 := (release_idempotent_references_balanced android (sampleEngine 0 none)
    liveEnv 8192 none none 48000 4096 0 1000000 staleTimestamp ⟨0⟩
    ⟨0, 0, ⟨0⟩, ⟨0⟩, true, true, true, false⟩).2.2.2.2.2.2.2.2 h1.2.1
  ⟨h0, h1.2.1, h2.1, h2.2.2.2.1 (by decide), by decide⟩

/-! ## The engine's status in the message -/

/-- A message that ends in the decimal rendering of `e` carries `e`. -/
theorem carriesCode_append (c : JavaExceptionClass) (pre : String) (e : Int) :
    carriesCode e ⟨c, some (pre ++ toString e)⟩ := by
  show containsText (toString e) (pre ++ toString e)
  unfold containsText
  rw [String.data_append]
  exact (List.suffix_append _ _).isInfix

/-- C6, as the code has it.  On a live handle and for a negative status `e`
answered by the engine: `native_configureSurface` and
`native_configureAudioTrack` (host object null, or with a live native object)
raise at least one exception, and every exception they raise has a message in
which the decimal rendering of `e` occurs; `native_setPlaybackRate`,
`native_updateQueuedAudioData` and `native_getPlayTimeForPendingAudioFrames`
raise, when `e` is not `BAD_VALUE`, one illegal-state exception whose message
ends in the decimal rendering of `e`, and, when `e` is `BAD_VALUE`, one
illegal-argument exception with a null message; `createInputSurface` returns
null and raises one illegal-state exception whose message ends in the decimal
rendering of `INVALID_OPERATION`, whatever `e` is. -/
theorem engine_status_in_message (K : Platform) (E : MediaSync σ) (env : JNIEnv σ)
    (e : Int) (surface : Option Surface) (audioTrack : Option Nat)
    (nativeSampleRateInHz : Int) (rate : JFloat) (sizeInBytes presentationTimeUs : Int)
    (hneg : e < 0) (hlive : env.context ≠ 0) :
    ((E.configureSurface (env.mSync env.context) (surface.bind Surface.producer)).1 = e →
      ∃ new, new ≠ []
        ∧ (android_media_MediaSync_native_configureSurface K E env
            (surface.map fun s => ⟨some s⟩)).thrown = env.thrown ++ new
        ∧ ∀ x ∈ new, carriesCode e x)
    ∧ ((E.configureAudioTrack (env.mSync env.context) audioTrack nativeSampleRateInHz).1
          = e →
      ∃ new, new ≠ []
        ∧ (android_media_MediaSync_native_configureAudioTrack K E env
            (audioTrack.map fun t => ⟨some t⟩) nativeSampleRateInHz).thrown
          = env.thrown ++ new
        ∧ ∀ x ∈ new, carriesCode e x)
    ∧ carriesCode e
        ⟨.IllegalStateException, some (K.nullText ++ " error:" ++ toString e)⟩
    ∧ ((E.setPlaybackRate (env.mSync env.context) rate).1 = e →
        (android_media_MediaSync_native_setPlaybackRate K E env rate).thrown
          = env.thrown ++
            [if e = K.BAD_VALUE then ⟨.IllegalArgumentException, none⟩
              else ⟨.IllegalStateException,
                some (K.nullText ++ " error:" ++ toString e)⟩])
    ∧ ((E.updateQueuedAudioData (env.mSync env.context) sizeInBytes
          presentationTimeUs).1 = e →
        (android_media_MediaSync_native_updateQueuedAudioData K E env sizeInBytes
            presentationTimeUs).thrown
          = env.thrown ++
            [if e = K.BAD_VALUE then ⟨.IllegalArgumentException, none⟩
              else ⟨.IllegalStateException,
                some (K.nullText ++ " error:" ++ toString e)⟩])
    ∧ ((E.getPlayTimeForPendingAudioFrames (env.mSync env.context) 0).1 = e →
        (android_media_MediaSync_native_getPlayTimeForPendingAudioFrames K E
            env).env.thrown
          = env.thrown ++
            [if e = K.BAD_VALUE then ⟨.IllegalArgumentException, none⟩
              else ⟨.IllegalStateException,
                some (K.nullText ++ " error:" ++ toString e)⟩])
    ∧ ((E.createInputSurface (env.mSync env.context) none).1 = e →
        (android_media_MediaSync_createInputSurface K E env).1 = none
        ∧ (android_media_MediaSync_createInputSurface K E env).2.thrown
          = env.thrown ++
            [⟨.IllegalStateException,
              some (K.nullText ++ " error:" ++ toString K.INVALID_OPERATION)⟩]) := by
  have he0 : e ≠ NO_ERROR := by unfold NO_ERROR; omega
  have hthrow : ∀ env1 : JNIEnv σ,
      (throwExceptionAsNecessary K env1 e none).thrown
        = env1.thrown ++
          [if e = K.BAD_VALUE then ⟨.IllegalArgumentException, none⟩
            else ⟨.IllegalStateException,
              some (K.nullText ++ " error:" ++ toString e)⟩] := by
    intro env1
    by_cases hb : e = K.BAD_VALUE
    · subst hb
      rw [throw_BAD_VALUE]
      simp [jniThrowException]
    · rw [throw_other_negative K env1 e none hneg hb]
      simp [jniThrowException, hb, AString.ofCStr]
  refine ⟨?_, ?_, ?_, ?_, ?_, ?_, ?_⟩
  · intro herr
    have hfw : android_media_MediaSync_native_configureSurface K E env
          (surface.map fun s => ⟨some s⟩)
        = configureSurface_forward K E env env.context
            (surface.bind Surface.producer) := by
      cases surface <;>
        simp [android_media_MediaSync_native_configureSurface, getMediaSync, hlive]
    rw [hfw, configureSurface_forward_thrown, herr, List.append_assoc]
    refine ⟨_, ?_, rfl, ?_⟩
    · simp [he0]
    · intro x hx
      by_cases hio : e = K.INVALID_OPERATION
      · subst hio
        simp only [if_true, ne_eq, he0, not_false_eq_true, List.cons_append,
          List.nil_append, List.mem_cons, List.mem_singleton, List.not_mem_nil,
          or_false] at hx
        rcases hx with hx | hx <;> subst hx
        · exact carriesCode_append _ _ _
        · exact carriesCode_append _ _ _
      · simp only [hio, if_false, ne_eq, he0, not_false_eq_true, if_true,
          List.nil_append, List.mem_singleton] at hx
        subst hx
        exact carriesCode_append _ _ e
  · intro herr
    have hfw : android_media_MediaSync_native_configureAudioTrack K E env
          (audioTrack.map fun t => ⟨some t⟩) nativeSampleRateInHz
        = configureAudioTrack_forward K E env env.context audioTrack
            nativeSampleRateInHz := by
      cases audioTrack <;>
        simp [android_media_MediaSync_native_configureAudioTrack, getMediaSync, hlive]
    rw [hfw, configureAudioTrack_forward_thrown, herr, List.append_assoc]
    refine ⟨_, ?_, rfl, ?_⟩
    · simp [he0]
    · intro x hx
      by_cases hio : e = K.INVALID_OPERATION
      · subst hio
        simp only [if_true, ne_eq, he0, not_false_eq_true, List.cons_append,
          List.nil_append, List.mem_cons, List.mem_singleton, List.not_mem_nil,
          or_false] at hx
        rcases hx with hx | hx <;> subst hx
        · exact carriesCode_append _ _ _
        · exact carriesCode_append _ _ _
      · simp only [hio, if_false, ne_eq, he0, not_false_eq_true, if_true,
          List.nil_append, List.mem_singleton] at hx
        subst hx
        exact carriesCode_append _ _ e
  · exact carriesCode_append _ _ e
  · intro herr
    rw [setPlaybackRate_live K E env rate hlive, herr, hthrow]
    rfl
  · intro herr
    rw [updateQueuedAudioData_live K E env _ _ hlive, herr, hthrow]
    rfl
  · intro herr
    rw [getPlayTimeForPendingAudioFrames_live K E env hlive, herr]
    exact hthrow _
  · intro herr
    simp [android_media_MediaSync_createInputSurface, getMediaSync, hlive,
      JMediaSync.createInputSurface, herr, he0, throw_released, through]

/-- Witness for the amended C6: the live sample state and an engine that answers
`NO_INIT` (-19) to every operation. -/
theorem engine_status_in_message_witness :
    (-19 : Int) < 0 ∧ liveEnv.context ≠ 0
    ∧ (∃ new, new ≠ []
        ∧ (android_media_MediaSync_native_configureSurface android
            (sampleEngine (-19) none) liveEnv (some ⟨some ⟨some 7⟩⟩)).thrown
          = liveEnv.thrown ++ new
        ∧ ∀ x ∈ new, carriesCode (-19) x)
    ∧ (∃ new, new ≠ []
        ∧ (android_media_MediaSync_native_configureAudioTrack android
            (sampleEngine (-19) none) liveEnv (some ⟨some 3⟩) 48000).thrown
          = liveEnv.thrown ++ new
        ∧ ∀ x ∈ new, carriesCode (-19) x)
    ∧ (android_media_MediaSync_native_setPlaybackRate android (sampleEngine (-19) none)
          liveEnv ⟨0x3F800000⟩).thrown
        = liveEnv.thrown ++ [⟨.IllegalStateException, some " error:-19"⟩]
    ∧ (android_media_MediaSync_createInputSurface android (sampleEngine (-19) none)
          liveEnv).2.thrown
        = liveEnv.thrown ++ [⟨.IllegalStateException, some " error:-38"⟩] :=
  have h := engine_status_in_message android (sampleEngine (-19) none) liveEnv (-19)
    (some ⟨some 7⟩) (some 3) 48000 ⟨0x3F800000⟩ 4096 0 (by decide) (by decide)
  ⟨by decide, by decide, h.1 rfl, h.2.1 rfl, h.2.2.2.1 rfl, (h.2.2.2.2.2.2 rfl).2⟩

/-- Counterexample to C6 as stated: on the live sample state, when the engine
answers `BAD_VALUE` (-22), `createInputSurface` raises the illegal-state exception
with message `" error:-38"`, in which `-22` does not occur, and
`native_setPlaybackRate` raises an illegal-argument exception with no message at
all. -/
theorem engine_status_not_in_message :
    (-22 : Int) < 0 ∧ liveEnv.thrown = []
    ∧ (android_media_MediaSync_createInputSurface android (sampleEngine (-22) none)
          liveEnv).2.calls = [(4096, .createInputSurface)]
    ∧ (android_media_MediaSync_createInputSurface android (sampleEngine (-22) none)
          liveEnv).2.thrown = [⟨.IllegalStateException, some " error:-38"⟩]
    ∧ ¬ carriesCode (-22) ⟨.IllegalStateException, some " error:-38"⟩
    ∧ (android_media_MediaSync_native_setPlaybackRate android (sampleEngine (-22) none)
          liveEnv ⟨0x3F800000⟩).calls = [(4096, .setPlaybackRate ⟨0x3F800000⟩)]
    ∧ (android_media_MediaSync_native_setPlaybackRate android (sampleEngine (-22) none)
          liveEnv ⟨0x3F800000⟩).thrown = [⟨.IllegalArgumentException, none⟩]
    ∧ ¬ carriesCode (-22) ⟨.IllegalArgumentException, none⟩ := by
  refine ⟨by decide, by decide, by decide, by decide, ?_, by decide, by decide, ?_⟩
  · show ¬ containsText (toString (-22 : Int)) " error:-38"
    decide
  · exact fun h => h

end MediaSyncJNI
